import Mathlib

/-!
Shallow embedding of src/cement_kiln_simulator.py.

Numbers are embedded as exact rationals (ℚ): the Python source computes with
IEEE doubles, but no claim below hinges on floating-point rounding, so the
idealised exact arithmetic is the intended reading.  The constant np.pi is
embedded as the rational value of its printed decimal 3.141592653589793.

The source references the controller gains Kp, Ki, Kd without ever binding
them (see module_level_names below); the arithmetic definitions therefore
take the gains as explicit parameters, and the name-resolution layer
(resolve_global, pid_control_eval, kiln_model_eval) records that an actual
Python evaluation raises NameError.
-/

namespace CementKiln

/-- Source line 10: fuel_heat_value = 32000 (kJ/kg). -/
def fuel_heat_value : ℚ := 32000

/-- Source line 11: specific_heat = 1.0 (kJ/kg·°C). -/
def specific_heat : ℚ := 1.0

/-- Source line 12: heat_loss_coeff = 0.001. -/
def heat_loss_coeff : ℚ := 0.001

/-- Source line 13: ambient_temp = 30 (°C). -/
def ambient_temp : ℚ := 30

/-- Source line 14: co2_per_kg_fuel = 3.17 (kg CO2 per kg coal). -/
def co2_per_kg_fuel : ℚ := 3.17

/-- np.pi as the rational value of its printed decimal representation. -/
def np_pi : ℚ := 3.141592653589793

/-- Source line 17: kiln_radius = 3.0 (m). -/
def kiln_radius : ℚ := 3.0

/-- Source line 18: kiln_length = 40.0 (m). -/
def kiln_length : ℚ := 40.0

/-- Source line 19: kiln_volume = np.pi * kiln_radius**2 * kiln_length. -/
def kiln_volume : ℚ := np_pi * kiln_radius ^ 2 * kiln_length

/-- Source line 20: kiln_mass = kiln_volume * 1200 (clinker density 1200 kg/m³). -/
def kiln_mass : ℚ := kiln_volume * 1200

/-- Model of a Streamlit slider (source lines 27-30): the widget only ever
yields values inside [lo, hi]; a selection outside the range is brought into
range rather than producing an error. -/
def st_slider (lo hi sel : ℚ) : ℚ := max lo (min hi sel)

/-- Source line 27: fuel_rate slider, range [100, 1000] kg/hr. -/
def fuel_rate_input (sel : ℚ) : ℚ := st_slider 100 1000 sel

/-- Source line 28: motor_speed slider, range [0.5, 5.0] RPM. -/
def motor_speed_input (sel : ℚ) : ℚ := st_slider 0.5 5.0 sel

/-- Source line 29: feed_rate slider, range [500, 3000] kg/hr. -/
def feed_rate_input (sel : ℚ) : ℚ := st_slider 500 3000 sel

/-- Source line 30: temp_setpoint slider, range [1000, 1500] °C. -/
def temp_setpoint_input (sel : ℚ) : ℚ := st_slider 1000 1500 sel

/-- Source line 33: residence_time = 30 / motor_speed. -/
def residence_time (motor_speed : ℚ) : ℚ := 30 / motor_speed

/-- Source line 34: efficiency_factor = min(1.0, residence_time / 30). -/
def efficiency_factor (motor_speed : ℚ) : ℚ :=
  min 1.0 (residence_time motor_speed / 30)

/-- Source lines 37-38: pid_control(error, integral, derivative) =
Kp * error + Ki * integral + Kd * derivative.  Kp, Ki, Kd are unbound
global names in the source and appear here as parameters. -/
def pid_control (Kp Ki Kd error integral derivative : ℚ) : ℚ :=
  Kp * error + Ki * integral + Kd * derivative

/-- Source lines 42-45 inside kiln_model: error = temp_setpoint - T;
integral = 0; derivative = 0; control_signal = pid_control(error, integral,
derivative). -/
def kiln_control_signal (Kp Ki Kd temp_setpoint T : ℚ) : ℚ :=
  pid_control Kp Ki Kd (temp_setpoint - T) 0 0

/-- Source line 47: fuel_rate_adjusted =
max(100, min(1000, fuel_rate + control_signal)). -/
def kiln_fuel_rate_adjusted (Kp Ki Kd temp_setpoint T fuel_rate : ℚ) : ℚ :=
  max 100 (min 1000 (fuel_rate + kiln_control_signal Kp Ki Kd temp_setpoint T))

/-- Source lines 41-54: kiln_model(T, t, fuel_rate, feed_rate) → dT/dt.
The globals it closes over (Kp, Ki, Kd, temp_setpoint, motor_speed via
efficiency_factor) are explicit parameters. -/
def kiln_model (Kp Ki Kd temp_setpoint motor_speed T t fuel_rate feed_rate : ℚ) : ℚ :=
  let fuel_rate_adjusted := kiln_fuel_rate_adjusted Kp Ki Kd temp_setpoint T fuel_rate
  let heat_input_kjs := fuel_rate_adjusted * fuel_heat_value / 3600
  let effective_heat_input := heat_input_kjs * efficiency_factor motor_speed
  let heat_loss := heat_loss_coeff * (T - ambient_temp)
  (effective_heat_input - heat_loss) / (kiln_mass * specific_heat)

/-- Claim-side name for source line 48: heat input in kJ/s from a fuel rate
in kg/hr. -/
def heat_input_rate (fuel_rate_adjusted : ℚ) : ℚ :=
  fuel_rate_adjusted * fuel_heat_value / 3600

/-- Claim-side name for source line 51: heat_loss = heat_loss_coeff * (T - ambient_temp). -/
def heat_loss (T : ℚ) : ℚ := heat_loss_coeff * (T - ambient_temp)

/-- Source lines 67-72: quality classification of the final temperature. -/
def quality (final_temp : ℚ) : String :=
  if final_temp ≥ 1350 then "✅ Good Clinker Formation"
  else if final_temp ≥ 1200 then "⚠️ Partial Sintering"
  else "❌ Poor Quality"

/-- Source line 75: co2_emitted = fuel_rate * co2_per_kg_fuel, computed from
the raw slider fuel_rate. -/
def co2_emitted (fuel_rate : ℚ) : ℚ := fuel_rate * co2_per_kg_fuel

/-- Source line 136: baseline_fuel = 700. -/
def baseline_fuel : ℚ := 700

/-- Source line 139: savings = (baseline_fuel - fuel_rate) * 330 * 24 (kg/year). -/
def savings (fuel_rate : ℚ) : ℚ := (baseline_fuel - fuel_rate) * 330 * 24

/-- Source line 140: co2_saved = savings * co2_per_kg_fuel. -/
def co2_saved (fuel_rate : ℚ) : ℚ := savings fuel_rate * co2_per_kg_fuel

/-- Source line 141: money_saved = savings * 15. -/
def money_saved (fuel_rate : ℚ) : ℚ := savings fuel_rate * 15

/-- The slider-configured run parameters together with the (unbound) gains;
the globals that kiln_model closes over, bundled for the determinism claim. -/
structure SimConfig where
  Kp : ℚ
  Ki : ℚ
  Kd : ℚ
  temp_setpoint : ℚ
  motor_speed : ℚ
  fuel_rate : ℚ
  feed_rate : ℚ
deriving DecidableEq

/-- Source line 57: time = np.linspace(0, 3600, 1000) has spacing 3600/999 s. -/
def sim_dt : ℚ := 3600 / 999

/-- The temperature trajectory of source line 61: the odeint integration of
kiln_model from the initial temperature over the linspace time points,
modelled as a deterministic explicit one-step scheme at the linspace spacing
(the determinism claim is independent of the particular one-step method). -/
def euler_temperature (cfg : SimConfig) (initial_temp : ℚ) : ℕ → ℚ
  | 0 => initial_temp
  | n + 1 =>
      let T := euler_temperature cfg initial_temp n
      T + kiln_model cfg.Kp cfg.Ki cfg.Kd cfg.temp_setpoint cfg.motor_speed
            T ((n : ℚ) * sim_dt) cfg.fuel_rate cfg.feed_rate * sim_dt

/-- The first N points of the temperature trajectory. -/
def euler_trajectory (cfg : SimConfig) (initial_temp : ℚ) (N : ℕ) : List ℚ :=
  (List.range N).map (euler_temperature cfg initial_temp)

/-- The run outputs derived from the trajectory (source lines 61-75 and 139):
trajectory, quality of the final temperature, CO₂ rate, savings. -/
def simulation_outputs (cfg : SimConfig) (initial_temp : ℚ) (N : ℕ) :
    List ℚ × String × ℚ × ℚ :=
  (euler_trajectory cfg initial_temp N,
   quality (euler_temperature cfg initial_temp N),
   co2_emitted cfg.fuel_rate,
   savings cfg.fuel_rate)

/-- All names bound at module level in src/cement_kiln_simulator.py:
imports (lines 1-7), assignments, and def statements, in source order. -/
def module_level_names : List String :=
  ["st", "np", "plt", "FuncAnimation", "Axes3D", "odeint", "mcolors",
   "fuel_heat_value", "specific_heat", "heat_loss_coeff", "ambient_temp",
   "co2_per_kg_fuel", "kiln_radius", "kiln_length", "kiln_volume", "kiln_mass",
   "fuel_rate", "motor_speed", "feed_rate", "temp_setpoint",
   "residence_time", "efficiency_factor", "pid_control", "kiln_model",
   "time", "initial_temp", "temperature", "final_temp", "quality",
   "co2_emitted", "fig", "ax", "theta", "z", "X", "Y", "fuel_color_map",
   "fuel", "fire_height", "fire", "update", "ani",
   "baseline_fuel", "baseline_heat", "baseline_temp",
   "savings", "co2_saved", "money_saved"]

/-- Python name resolution against the module-level bindings: an unbound
name raises NameError. -/
def resolve_global (x : String) : Except String Unit :=
  if x ∈ module_level_names then Except.ok ()
  else Except.error ("NameError: name " ++ x ++ " is not defined")

/-- Evaluating the body of pid_control (source line 38) resolves the free
names Kp, Ki, Kd against the module-level bindings; the numeric arguments
cannot influence the outcome of name resolution. -/
def pid_control_eval (error integral derivative : ℚ) : Except String Unit := do
  let _ ← resolve_global "Kp"
  let _ ← resolve_global "Ki"
  let _ ← resolve_global "Kd"
  return ()

/-- Evaluating the body of kiln_model (source lines 41-54) resolves
temp_setpoint, runs the pid_control call, then resolves the thermal
constants. -/
def kiln_model_eval (temp_setpoint T t fuel_rate feed_rate : ℚ) : Except String Unit := do
  let _ ← resolve_global "temp_setpoint"
  let _ ← pid_control_eval (temp_setpoint - T) 0 0
  let _ ← resolve_global "fuel_heat_value"
  let _ ← resolve_global "efficiency_factor"
  let _ ← resolve_global "heat_loss_coeff"
  let _ ← resolve_global "ambient_temp"
  let _ ← resolve_global "kiln_mass"
  let _ ← resolve_global "specific_heat"
  return ()

/-- PID state as the claim C1 describes it: an integral accumulator and the
previous error. -/
structure PidState where
  integral : ℚ
  prev_error : ℚ
deriving DecidableEq

/-- The stateful PID law exactly as claim C1 states it (spec-side definition,
for comparison with the source's kiln_control_signal): error = setpoint − T;
integral += error × dt; derivative = (error − prev_error) / dt;
control = Kp·error + Ki·integral + Kd·derivative; prev_error = error. -/
def spec_pid_step (Kp Ki Kd dt setpoint T : ℚ) (s : PidState) : ℚ × PidState :=
  let error := setpoint - T
  let integral := s.integral + error * dt
  let derivative := (error - s.prev_error) / dt
  let control := Kp * error + Ki * integral + Kd * derivative
  (control, ⟨integral, error⟩)

/-- Modelled from the spec: the spec requires that zero or near-zero motor
speed be rejected as a ConfigurationError at configuration time.  No such
rejection exists in the source; this definition renders the spec's words for
comparison with the source's slider behaviour. -/
def spec_configure_motor_speed (sel : ℚ) : Except String ℚ :=
  if sel < 0.5 then Except.error "ConfigurationError: zero or near-zero motor speed"
  else Except.ok sel

/-! ## Theorems -/

/-- C1 (counterexample): the control signal the source computes is not the
stateful PID law the claim states.  At gains Kp = 0, Ki = 1, Kd = 0, dt = 1,
setpoint = 1350 and temperature 400, the claimed stateful law yields 950 on
its first step (the integral has accumulated error × dt = 950), while the
source's kiln_model, which sets integral = 0 and derivative = 0 locally at
every call, yields 0. -/
theorem c1_stateful_pid_counterexample :
    kiln_control_signal 0 1 0 1350 400 = 0 ∧
    (spec_pid_step 0 1 0 1 1350 400 ⟨0, 0⟩).1 = 950 ∧
    kiln_control_signal 0 1 0 1350 400 ≠ (spec_pid_step 0 1 0 1 1350 400 ⟨0, 0⟩).1 := by
  have h₁ : kiln_control_signal 0 1 0 1350 400 = 0 := by
    norm_num [kiln_control_signal, pid_control]
  have h₂ : (spec_pid_step 0 1 0 1 1350 400 ⟨0, 0⟩).1 = 950 := by
    norm_num [spec_pid_step]
  refine ⟨h₁, h₂, ?_⟩
  rw [h₁, h₂]
  norm_num

/-- C1 (amended): at every evaluation of kiln_model the control signal is
pid_control applied to error = temp_setpoint − T with integral = 0 and
derivative = 0 — no PID state is carried across steps — so the control
signal reduces to the purely proportional Kp · (temp_setpoint − T). -/
theorem c1_control_is_stateless_proportional (Kp Ki Kd temp_setpoint T : ℚ) :
    kiln_control_signal Kp Ki Kd temp_setpoint T
      = pid_control Kp Ki Kd (temp_setpoint - T) 0 0 ∧
    kiln_control_signal Kp Ki Kd temp_setpoint T = Kp * (temp_setpoint - T) := by
  constructor
  · rfl
  · simp [kiln_control_signal, pid_control]

/-- C2 (counterexample): the reported CO₂ rate is computed from the raw
slider fuel rate, not from the post-clamp actuated rate.  With base fuel
rate 500, gains Kp = 1, Ki = 0, Kd = 0, setpoint 1350 and temperature 400,
the actuated rate clamps to 1000, so actuated × co2_factor = 3170, while
the source reports co2_emitted = 500 × 3.17 = 1585. -/
theorem c2_co2_actuated_counterexample :
    kiln_fuel_rate_adjusted 1 0 0 1350 400 500 = 1000 ∧
    co2_emitted 500 ≠ kiln_fuel_rate_adjusted 1 0 0 1350 400 500 * co2_per_kg_fuel := by
  have h₁ : kiln_fuel_rate_adjusted 1 0 0 1350 400 500 = 1000 := by
    norm_num [kiln_fuel_rate_adjusted, kiln_control_signal, pid_control, min_def, max_def]
  refine ⟨h₁, ?_⟩
  rw [h₁]
  norm_num [co2_emitted, co2_per_kg_fuel]

/-- C2 (amended): the reported CO₂ rate equals the configured (pre-control,
raw slider) base fuel rate times the CO₂ emission factor, computed once
after the run; it is not derived from the post-clamp actuated rate. -/
theorem c2_co2_from_base_rate (fuel_rate : ℚ) :
    co2_emitted fuel_rate = fuel_rate * co2_per_kg_fuel := rfl

/-- C3: for every raw control signal (hence for every gain setting, setpoint
and temperature) and every base fuel rate, the actuated fuel rate used by
the thermal model lies in [100, 1000], even when fuel_rate + control leaves
those bounds. -/
theorem c3_actuation_bounds (Kp Ki Kd temp_setpoint T fuel_rate : ℚ) :
    100 ≤ kiln_fuel_rate_adjusted Kp Ki Kd temp_setpoint T fuel_rate ∧
    kiln_fuel_rate_adjusted Kp Ki Kd temp_setpoint T fuel_rate ≤ 1000 := by
  unfold kiln_fuel_rate_adjusted
  exact ⟨le_max_left _ _, max_le (by norm_num) (min_le_left _ _)⟩

/-- C4: the quality classification is Good exactly when final_temp ≥ 1350,
Partial exactly when 1200 ≤ final_temp < 1350, and Poor exactly when
final_temp < 1200; the three cases are exhaustive and mutually exclusive
since quality is a total function and the three result strings differ. -/
theorem c4_quality_classification (T : ℚ) :
    (quality T = "✅ Good Clinker Formation" ↔ 1350 ≤ T) ∧
    (quality T = "⚠️ Partial Sintering" ↔ 1200 ≤ T ∧ T < 1350) ∧
    (quality T = "❌ Poor Quality" ↔ T < 1200) := by
  unfold quality
  split_ifs with h1 h2
  · refine ⟨⟨fun _ => h1, fun _ => rfl⟩,
      ⟨fun h => absurd h (by decide), fun h => absurd h1 (not_le.mpr h.2)⟩,
      ⟨fun h => absurd h (by decide),
       fun h => absurd h1 (not_le.mpr (lt_of_lt_of_le h (by norm_num)))⟩⟩
  · refine ⟨⟨fun h => absurd h (by decide), fun h => absurd h h1⟩,
      ⟨fun _ => ⟨h2, not_le.mp h1⟩, fun _ => rfl⟩,
      ⟨fun h => absurd h (by decide), fun h => absurd h2 (not_le.mpr h)⟩⟩
  · refine ⟨⟨fun h => absurd h (by decide),
       fun h => absurd (le_trans (by norm_num) h) h1⟩,
      ⟨fun h => absurd h (by decide), fun h => absurd h.1 h2⟩,
      ⟨fun _ => not_le.mp h2, fun _ => rfl⟩⟩

/-- C5: the thermal model returns
(effective_heat_input − heat_loss − cooling) / (kiln_mass × specific_heat)
with heat_input_rate = fuel_rate_adjusted × fuel_heat_value / 3600,
effective_heat_input = heat_input_rate × efficiency_factor,
efficiency_factor = min(1, residence_time / 30), residence_time =
30 / motor_speed, heat_loss = heat_loss_coeff × (T − ambient_temp), and a
cooling term that is identically zero in this variant. -/
theorem c5_temperature_rate_formula
    (Kp Ki Kd temp_setpoint motor_speed T t fuel_rate feed_rate : ℚ) :
    kiln_model Kp Ki Kd temp_setpoint motor_speed T t fuel_rate feed_rate
      = (heat_input_rate (kiln_fuel_rate_adjusted Kp Ki Kd temp_setpoint T fuel_rate)
          * efficiency_factor motor_speed
         - heat_loss T - 0) / (kiln_mass * specific_heat) ∧
    efficiency_factor motor_speed = min 1 (residence_time motor_speed / 30) ∧
    residence_time motor_speed = 30 / motor_speed := by
  refine ⟨?_, by norm_num [efficiency_factor], rfl⟩
  simp only [kiln_model, heat_input_rate, heat_loss, sub_zero]

/-- C6: the savings estimate is the static one-shot computation
savings = (baseline_fuel − fuel_rate) × 330 × 24 with baseline_fuel = 700,
co2_saved = savings × co2_per_kg_fuel, money_saved = savings × 15, for
every configured base fuel rate. -/
theorem c6_savings_estimate (fuel_rate : ℚ) :
    baseline_fuel = 700 ∧
    savings fuel_rate = (baseline_fuel - fuel_rate) * 330 * 24 ∧
    co2_saved fuel_rate = savings fuel_rate * co2_per_kg_fuel ∧
    money_saved fuel_rate = savings fuel_rate * 15 :=
  ⟨rfl, rfl, rfl, rfl⟩

/-- C7 (counterexample): a zero motor-speed selection is not rejected with a
ConfigurationError — the source has no such error path; the slider simply
keeps the value inside [0.5, 5.0], so selecting 0 yields the accepted motor
speed 0.5 and a well-defined residence time of 60 s, while the spec's words
would have produced a ConfigurationError. -/
theorem c7_no_configuration_error_counterexample :
    spec_configure_motor_speed 0
      = Except.error "ConfigurationError: zero or near-zero motor speed" ∧
    motor_speed_input 0 = 0.5 ∧
    residence_time (motor_speed_input 0) = 60 := by
  have h₁ : motor_speed_input 0 = 0.5 := by
    norm_num [motor_speed_input, st_slider, min_def, max_def]
  refine ⟨by norm_num [spec_configure_motor_speed], h₁, ?_⟩
  rw [h₁]
  norm_num [residence_time]

/-- C7 (amended): zero motor speed can never reach the residence-time
division because the motor-speed slider restricts every accepted value to at
least 0.5; in particular the accepted motor speed is nonzero and
residence_time × motor_speed = 30, so 30 / motor_speed never divides by
zero. -/
theorem c7_motor_speed_never_zero (sel : ℚ) :
    0.5 ≤ motor_speed_input sel ∧
    motor_speed_input sel ≠ 0 ∧
    residence_time (motor_speed_input sel) * motor_speed_input sel = 30 := by
  have hle : (0.5 : ℚ) ≤ motor_speed_input sel := le_max_left _ _
  have hne : motor_speed_input sel ≠ 0 := by
    intro h
    rw [h] at hle
    norm_num at hle
  exact ⟨hle, hne, div_mul_cancel₀ 30 hne⟩

/-- C8: the simulation is deterministic — for any two equal configurations
and the same initial temperature and number of time points, the stepping
computation produces identical temperature trajectories and derived
records. -/
theorem c8_determinism (c₁ c₂ : SimConfig) (initial_temp : ℚ) (N : ℕ)
    (h : c₁ = c₂) :
    simulation_outputs c₁ initial_temp N = simulation_outputs c₂ initial_temp N := by
  rw [h]

/-- Witness for C8 at the concrete configuration of the spec's scenario
(Kp = 5, Ki = 0.5, Kd = 0.1, setpoint 1400, motor speed 3, fuel 600,
feed 1500), initial temperature 400 and five time points. -/
theorem c8_determinism_witness :
    simulation_outputs ⟨5, 0.5, 0.1, 1400, 3, 600, 1500⟩ 400 5
      = simulation_outputs ⟨5, 0.5, 0.1, 1400, 3, 600, 1500⟩ 400 5 :=
  c8_determinism ⟨5, 0.5, 0.1, 1400, 3, 600, 1500⟩ ⟨5, 0.5, 0.1, 1400, 3, 600, 1500⟩ 400 5 rfl

/-- C9: the controller gains Kp, Ki and Kd are bound nowhere among the
module-level names of the source, so every evaluation of pid_control's
body — and hence of kiln_model, whatever the numeric arguments — stops with
a NameError for Kp instead of returning a control signal. -/
theorem c9_gains_unbound :
    "Kp" ∉ module_level_names ∧ "Ki" ∉ module_level_names ∧
    "Kd" ∉ module_level_names ∧
    (∀ error integral derivative : ℚ,
      pid_control_eval error integral derivative
        = Except.error "NameError: name Kp is not defined") ∧
    (∀ temp_setpoint T t fuel_rate feed_rate : ℚ,
      kiln_model_eval temp_setpoint T t fuel_rate feed_rate
        = Except.error "NameError: name Kp is not defined") := by
  refine ⟨by decide, by decide, by decide, fun _ _ _ => rfl, fun _ _ _ _ _ => rfl⟩

/-- C10: the feed_rate argument of kiln_model is never used: for any
temperature, time, fuel rate and any two feed rates, kiln_model returns the
same temperature rate. -/
theorem c10_feed_rate_unused
    (Kp Ki Kd temp_setpoint motor_speed T t fuel_rate a b : ℚ) :
    kiln_model Kp Ki Kd temp_setpoint motor_speed T t fuel_rate a
      = kiln_model Kp Ki Kd temp_setpoint motor_speed T t fuel_rate b := rfl

end CementKiln
